import Mathlib

/-!
Verification of the read-to-genotype counting engine of
`bean/mapping/GuideEditCounter.py` (crispr-bean).

Sequences are shallowly embedded as lists of characters; Python's
single-character `str.replace` is the characterwise map `mask`.  The
classification loop of `GuideEditCounter._get_guide_counts_bcmatch_semimatch`
becomes a fold of a per-read-pair state transition over the read stream; the
external alignment routine `_get_edited_allele_crispresso` (imported from
`_supporting_fn`, outside the sources at hand) is abstracted as a
deterministic oracle returning the called allele and its score, which is
exactly how the counting code consumes it.
-/

namespace CrisprBean

/-- A nucleotide sequence, as Python manipulates strings: a list of
characters. -/
abbrev Seq := List Char

/-- One character of `str.replace(base_edited_from, base_edited_to)`:
the edited-from base is rewritten to the edited-to base. -/
def maskBase (f t c : Char) : Char := if c = f then t else c

/-- Embeds `s.replace(self.base_edited_from, self.base_edited_to)` for a
single-character base: rewrite every occurrence of `f` to `t`
(GuideEditCounter.py, used at lines 151-153, 169-174, 553-574, 617-624). -/
def mask (f t : Char) (s : Seq) : Seq := s.map (maskBase f t)

/-- Embeds `GuideEditCounter.masked_equal` (lines 149-153): equality of the two
masked sequences. -/
def masked_equal (f t : Char) (seq1 seq2 : Seq) : Bool :=
  decide (mask f t seq1 = mask f t seq2)

/-! ## The guide table (`GuideEditCounter._set_sgRNA_df`, lines 155-175) -/

/-- A column label of the tabular guide catalogue.  The Python code keys
columns by strings; the labels it touches are enumerated here. -/
inductive GuideCol
  | name
  | sequence
  | barcode
  | strand
  | start_pos
  | reporter
deriving DecidableEq, Repr

/-- One row of the input guide table.  `guide_name` is an opaque row
identity; `sequence` and `barcode` hold that row's cells (meaningful only
when the corresponding column is present). -/
structure RawGuideRow where
  guide_name : Nat
  sequence : Seq
  barcode : Seq
deriving DecidableEq, Repr

/-- The parsed CSV: its column labels and its rows. -/
structure GuideInfoDf where
  columns : List GuideCol
  rows : List RawGuideRow
deriving DecidableEq, Repr

/-- A guide record after `_set_sgRNA_df` completed: the reference sequence
and barcode together with their masked forms (lines 169-174). -/
structure LoadedGuide where
  sequence : Seq
  barcode : Seq
  masked_sequence : Seq
  masked_barcode : Seq
deriving DecidableEq, Inhabited, Repr

/-- How loading the guide table can fail: `inputFileError` models the
`InputFileError` raised by the explicit column checks (lines 159-166), and
`attributeError` models the pandas `AttributeError` raised by
`self.guides_info_df.barcode` (line 172) when no `barcode` column exists. -/
inductive LoadError
  | inputFileError
  | attributeError
deriving DecidableEq, Repr

/-- Embeds `GuideEditCounter._set_sgRNA_df` (lines 155-175): the column checks,
then the computation of the `masked_sequence` and `masked_barcode` columns.
`count_only_bcmatched` is the flag read at line 163 (the constructor sets it
to `False` at line 84 before calling this). -/
def set_sgRNA_df (count_only_bcmatched : Bool) (f t : Char)
    (df : GuideInfoDf) : Except LoadError (List LoadedGuide) :=
  if GuideCol.name ∉ df.columns ∨ GuideCol.sequence ∉ df.columns then
    .error .inputFileError
  else if count_only_bcmatched = true ∧ GuideCol.barcode ∉ df.columns then
    .error .inputFileError
  else if GuideCol.barcode ∉ df.columns then
    .error .attributeError
  else
    .ok (df.rows.map fun r =>
      { sequence := r.sequence
        barcode := r.barcode
        masked_sequence := mask f t r.sequence
        masked_barcode := mask f t r.barcode })

/-- Embeds `self.guide_lengths = sgRNA_df.sequence.map(lambda s: len(s)).unique()`
(line 175): the distinct guide lengths, first occurrences kept in order as
pandas `unique` does. -/
def pandas_unique (l : List Nat) : List Nat :=
  l.foldl (fun acc x => if x ∈ acc then acc else acc ++ [x]) []

/-- The distinct guide lengths of a loaded table (line 175). -/
def guide_lengths (gs : List LoadedGuide) : List Nat :=
  pandas_unique (gs.map fun g => g.sequence.length)

/-! ## Read construct extraction (lines 549-605) -/

/-- Python `str.find`: the least index at which `pat` occurs in `s`
(`none` for Python's `-1`).  A match at `i` means the next `pat.length`
characters of `s` starting at `i` are exactly `pat`; the empty pattern
occurs at index `0`. -/
def findSub (s pat : Seq) : Option Nat :=
  (List.range (s.length + 1)).find? fun i =>
    decide ((s.drop i).take pat.length = pat)

/-- The run configuration consumed by the counting engine (constructor
lines 62-147): the edited base pair, the guide anchors, the barcode length,
the alignment-score threshold (80, line 117) and the feature toggles. -/
structure CountConfig where
  base_edited_from : Char
  base_edited_to : Char
  guide_start_seq : Seq
  guide_end_seq : Seq
  guide_bc_len : Nat
  align_score_threshold : Int
  count_guide_edits : Bool
  count_reporter_edits : Bool
  count_guide_reporter_alleles : Bool
deriving Repr

/-- Embeds `GuideEditCounter.get_guide_seq` (lines 549-576): extract the candidate
guide window of length `guide_length` from R1, anchored on the first
masked-space occurrence of `guide_start_seq` (when `guide_end_seq` is
empty) or of `guide_end_seq` otherwise.  Faithful to the source, including
the `guide_start_idx + guide_length >= len(R1_seq)` pre-check performed on
the anchor index before the anchor length is added, and the final
`len(gRNA_seq) != guide_length` slice-length check. -/
def get_guide_seq (cfg : CountConfig) (R1_seq : Seq) (guide_length : Nat) :
    Option Seq :=
  let f := cfg.base_edited_from
  let t := cfg.base_edited_to
  if cfg.guide_end_seq = [] then
    match findSub (mask f t R1_seq) (mask f t cfg.guide_start_seq) with
    | none => none
    | some guide_start_idx =>
      if R1_seq.length ≤ guide_start_idx + guide_length then none
      else
        let start := guide_start_idx + cfg.guide_start_seq.length
        let gRNA_seq := (R1_seq.drop start).take guide_length
        if gRNA_seq.length ≠ guide_length then none else some gRNA_seq
  else
    match findSub (mask f t R1_seq) (mask f t cfg.guide_end_seq) with
    | none => none
    | some guide_end_idx =>
      if guide_end_idx < guide_length then none
      else
        let gRNA_seq :=
          (R1_seq.drop (guide_end_idx - guide_length)).take guide_length
        if gRNA_seq.length ≠ guide_length then none else some gRNA_seq

/-- Modelled from the spec: `revcomp` lives in `_supporting_fn`, outside
the sources at hand.  The spec (section 4.3 and glossary) calls it the
reverse complement of a nucleotide sequence. -/
def complementBase (c : Char) : Char :=
  if c = 'A' then 'T'
  else if c = 'T' then 'A'
  else if c = 'C' then 'G'
  else if c = 'G' then 'C'
  else c

/-- Modelled from the spec: reverse complement (see `complementBase`). -/
def revcomp (s : Seq) : Seq := (s.map complementBase).reverse

/-- Embeds `GuideEditCounter.get_barcode` (lines 603-605): the reverse complement
of the first `guide_bc_len` bases of R2.  `R1_seq` is accepted and unused,
as in the source. -/
def get_barcode (cfg : CountConfig) (R1_seq R2_seq : Seq) : Seq :=
  let _ := R1_seq
  revcomp (R2_seq.take cfg.guide_bc_len)

/-! ## Read classification (lines 607-631 and 446-518) -/

/-- Embeds `np.where(masked candidate == guides.masked_sequence)[0]` (lines
617-620): the ascending list of guide indices whose masked reference
sequence equals the masked candidate. -/
def seq_match_idx (f t : Char) (gs : List LoadedGuide) (seq : Seq) :
    List Nat :=
  (List.range gs.length).filter fun i =>
    decide (mask f t seq = (gs.getD i default).masked_sequence)

/-- Embeds `np.where(masked barcode == guides.masked_barcode)[0]` (lines 621-624):
the ascending list of guide indices whose masked barcode equals the masked
read barcode. -/
def bc_match_idx (f t : Char) (gs : List LoadedGuide) (barcode : Seq) :
    List Nat :=
  (List.range gs.length).filter fun i =>
    decide (mask f t barcode = (gs.getD i default).masked_barcode)

/-- One iteration of the loop of
`_match_read_to_sgRNA_bcmatch_semimatch` (lines 612-629): extract the
candidate window for one guide length (skipping the length when there is
none), compute its sequence-match set and the barcode-match set, append
`np.intersect1d` of the two (on these sorted duplicate-free index lists,
the sublist of the sequence matches that also match the barcode) to the
first accumulator component and the sequence-match set to the second. -/
def match_step (cfg : CountConfig) (gs : List LoadedGuide)
    (R1_seq guide_barcode : Seq) (acc : List Nat × List Nat)
    (guide_length : Nat) : List Nat × List Nat :=
  match get_guide_seq cfg R1_seq guide_length with
  | none => acc
  | some seq =>
    let seqMatch :=
      seq_match_idx cfg.base_edited_from cfg.base_edited_to gs seq
    let bcMatch :=
      bc_match_idx cfg.base_edited_from cfg.base_edited_to gs guide_barcode
    (acc.1 ++ seqMatch.filter fun i => decide (i ∈ bcMatch),
     acc.2 ++ seqMatch)

/-- Embeds `GuideEditCounter._match_read_to_sgRNA_bcmatch_semimatch` (lines
607-631): fold `match_step` over the distinct guide lengths, starting from
two empty index lists. -/
def match_read_to_sgRNA_bcmatch_semimatch (cfg : CountConfig)
    (gs : List LoadedGuide) (R1_seq R2_seq : Seq) : List Nat × List Nat :=
  let guide_barcode := get_barcode cfg R1_seq R2_seq
  (guide_lengths gs).foldl (match_step cfg gs R1_seq guide_barcode)
    ([], [])

/-- The five-way classification of one read pair, following the branch
structure of `_get_guide_counts_bcmatch_semimatch` (lines 472-512). -/
inductive ReadClass
  | no_match
  | duplicate_match_wo_barcode
  | semimatch (guide : Nat)
  | duplicate_match
  | bcmatch (guide : Nat)
deriving DecidableEq, Repr

/-- The classification decision of lines 472-500: the branch taken as a
function of the two matched-index lists. -/
def classify_read (cfg : CountConfig) (gs : List LoadedGuide)
    (R1_seq R2_seq : Seq) : ReadClass :=
  let m := match_read_to_sgRNA_bcmatch_semimatch cfg gs R1_seq R2_seq
  if m.1.length = 0 then
    if m.2.length = 0 then .no_match
    else if 2 ≤ m.2.length then .duplicate_match_wo_barcode
    else .semimatch (m.2.headD 0)
  else if 2 ≤ m.1.length then .duplicate_match
  else .bcmatch (m.1.headD 0)

/-! ## Alleles and the alignment oracle -/

/-- One called base substitution (the `Edit` value of the `bean` package):
a position in the reference frame and the reference and alternative
bases. -/
structure Edit where
  rel_pos : Int
  ref_base : Char
  alt_base : Char
deriving DecidableEq, Repr

/-- An allele: the ordered list of edits called on one read
(the `Allele` value of the `bean` package; empty = wild type). -/
structure Allele where
  edits : List Edit
deriving DecidableEq, Repr

/-- One read pair as the classification loop consumes it (lines 464-466):
the R1 and R2 sequences (their quality tracks are consumed only by the
alignment oracle below and are folded into it). -/
structure ReadPair where
  R1_seq : Seq
  R2_seq : Seq
deriving DecidableEq, Repr

/-- The external alignment routine `_get_edited_allele_crispresso`
(imported from `_supporting_fn`): deterministic in its inputs, it returns
the called allele and a normalized alignment score.  `guideCall` stands for
the call made by `_count_guide_edits` (lines 315-341) and `reporterCall`
for the call made by `_count_reporter_edits` (lines 413-431); both are
abstracted over the read pair and the matched guide index. -/
structure AlignOracle where
  guideCall : Nat → ReadPair → Allele × Int
  reporterCall : Nat → ReadPair → Allele × Int

/-! ## The accumulation dictionaries (lines 366-392, 520-531) -/

/-- A Python dict from keys to integer counts, embedded as an association
list in insertion order. -/
abbrev CountDict (κ : Type) := List (κ × Int)

/-- Performs `d[k] += 1` if `k` is a key of `d`, else `d[k] = 1` (appended, as a
fresh key is in a Python dict). -/
def bumpCount {κ : Type} [DecidableEq κ] (d : CountDict κ) (k : κ) :
    CountDict κ :=
  if d.any fun p => p.1 = k then
    d.map fun p => if p.1 = k then (p.1, p.2 + 1) else p
  else d ++ [(k, 1)]

/-- A dict of dicts: guide index to per-key counts, in insertion order. -/
abbrev NestedCountDict (κ : Type) := List (Nat × CountDict κ)

/-- Embeds `GuideEditCounter._update_counted_allele` (lines 366-374) generalized
over the inner key type: bump `d[guide_idx][k]`, creating the inner dict
`{k: 1}` when the guide index is new. -/
def update_counted (κ : Type) [DecidableEq κ] (d : NestedCountDict κ)
    (guide_idx : Nat) (k : κ) : NestedCountDict κ :=
  if d.any fun p => p.1 = guide_idx then
    d.map fun p => if p.1 = guide_idx then (p.1, bumpCount p.2 k) else p
  else d ++ [(guide_idx, [(k, 1)])]

/-! ## The run state and the per-read transition (lines 446-518, 394-444) -/

/-- The mutable state of one counting run: the five scalar classification
counters (lines 143-147), the two count-matrix layers (`X`, the semimatch
layer, and `X_bcmatch`; single-sample, so a vector indexed by guide), the
reporter-allele dictionary `guide_to_allele` (line 136), the joint
guide/reporter dictionary `guide_to_guide_reporter_allele` (line 116), and
the `screen.uns["guide_edit_counts"]` dictionary (line 106). -/
structure RunState where
  no_match : Int
  semimatch : Int
  bcmatch : Int
  duplicate_match : Int
  duplicate_match_wo_barcode : Int
  X : Nat → Int
  X_bcmatch : Nat → Int
  guide_to_allele : NestedCountDict Allele
  guide_to_guide_reporter_allele : NestedCountDict (Allele × Allele)
  guide_edit_counts : CountDict (Nat × Edit)

/-- All counters zero, all matrices zero, all dictionaries empty: the state
at the top of `_get_guide_counts_bcmatch_semimatch` (constructor lines
95-147 and line 450). -/
def initialRunState : RunState where
  no_match := 0
  semimatch := 0
  bcmatch := 0
  duplicate_match := 0
  duplicate_match_wo_barcode := 0
  X := fun _ => 0
  X_bcmatch := fun _ => 0
  guide_to_allele := []
  guide_to_guide_reporter_allele := []
  guide_edit_counts := []

/-- Increment one cell of a count-matrix layer
(`layer[matched_guide_idx, 0] += 1`, lines 489 and 501). -/
def bumpAt (m : Nat → Int) (g : Nat) : Nat → Int :=
  fun i => if i = g then m i + 1 else m i

/-- Embeds `GuideEditCounter._count_reporter_edits` (lines 394-444): call the
reporter alignment; on `score < align_score_threshold` reclassify the read
(`semimatch += 1; bcmatch -= 1`) and record nothing; otherwise record the
reporter allele (when reporter counting is on) and, when joint counting is
on and a guide allele was passed, the `(reporter allele, guide allele)`
pair. -/
def count_reporter_edits (cfg : CountConfig) (oracle : AlignOracle)
    (matched_guide_idx : Nat) (r : ReadPair) (guide_allele : Option Allele)
    (st : RunState) : RunState :=
  let call := oracle.reporterCall matched_guide_idx r
  if call.2 < cfg.align_score_threshold then
    { st with semimatch := st.semimatch + 1, bcmatch := st.bcmatch - 1 }
  else
    let newAlleles :=
      update_counted Allele st.guide_to_allele matched_guide_idx call.1
    let st1 :=
      if cfg.count_reporter_edits then
        { st with guide_to_allele := newAlleles }
      else st
    match guide_allele with
    | some ga =>
      let newJoint :=
        update_counted (Allele × Allele) st1.guide_to_guide_reporter_allele
          matched_guide_idx (call.1, ga)
      if cfg.count_guide_reporter_alleles then
        { st1 with guide_to_guide_reporter_allele := newJoint }
      else st1
    | none => st1

/-- The body of the classification loop of
`_get_guide_counts_bcmatch_semimatch` (lines 464-513) for one read pair.
`_count_guide_edits` (called at lines 491 and 504) computes a guide allele
and score but updates no state; its result is only passed on to
`_count_reporter_edits` in the unique-barcode-match branch.  The
`keep_intermediate` diagnostic FASTQ dumps are file I/O only and not
modelled. -/
def process_read_pair (cfg : CountConfig) (gs : List LoadedGuide)
    (oracle : AlignOracle) (st : RunState) (r : ReadPair) : RunState :=
  let m := match_read_to_sgRNA_bcmatch_semimatch cfg gs r.R1_seq r.R2_seq
  if m.1.length = 0 then
    if m.2.length = 0 then
      { st with no_match := st.no_match + 1 }
    else if 2 ≤ m.2.length then
      { st with duplicate_match_wo_barcode :=
          st.duplicate_match_wo_barcode + 1 }
    else
      let matched_guide_idx := m.2.headD 0
      { st with
          X := bumpAt st.X matched_guide_idx
          semimatch := st.semimatch + 1 }
  else if 2 ≤ m.1.length then
    { st with duplicate_match := st.duplicate_match + 1 }
  else
    let matched_guide_idx := m.1.headD 0
    let st1 :=
      { st with
          X_bcmatch := bumpAt st.X_bcmatch matched_guide_idx
          bcmatch := st.bcmatch + 1 }
    let guide_allele : Option Allele :=
      if cfg.count_guide_edits ∨ cfg.count_guide_reporter_alleles then
        some (oracle.guideCall matched_guide_idx r).1
      else none
    if cfg.count_reporter_edits then
      if cfg.count_guide_reporter_alleles then
        count_reporter_edits cfg oracle matched_guide_idx r guide_allele st1
      else
        count_reporter_edits cfg oracle matched_guide_idx r none st1
    else st1

/-- The whole classification loop (lines 459-514): fold the per-read
transition over the read stream, starting from the empty state. -/
def get_guide_counts_bcmatch_semimatch (cfg : CountConfig)
    (gs : List LoadedGuide) (oracle : AlignOracle)
    (reads : List ReadPair) : RunState :=
  reads.foldl (process_read_pair cfg gs oracle) initialRunState

/-- Embeds `self.screen.X = semimatch layer + bcmatch layer` (lines 516-518): the
total count matrix assembled after the loop. -/
def screen_X (st : RunState) : Nat → Int :=
  fun g => st.X g + st.X_bcmatch g

/-- The sum of the five run-wide classification counters. -/
def countersSum (st : RunState) : Int :=
  st.no_match + st.semimatch + st.bcmatch + st.duplicate_match +
    st.duplicate_match_wo_barcode

/-- Exactly one of the five classification counters grew by one between
two states (net of the in-flight `bcmatch` to `semimatch`
reclassification) and the other four are unchanged. -/
def OneCounterIncrement (st st' : RunState) : Prop :=
  (st'.no_match = st.no_match + 1 ∧ st'.semimatch = st.semimatch ∧
    st'.bcmatch = st.bcmatch ∧ st'.duplicate_match = st.duplicate_match ∧
    st'.duplicate_match_wo_barcode = st.duplicate_match_wo_barcode) ∨
  (st'.no_match = st.no_match ∧ st'.semimatch = st.semimatch + 1 ∧
    st'.bcmatch = st.bcmatch ∧ st'.duplicate_match = st.duplicate_match ∧
    st'.duplicate_match_wo_barcode = st.duplicate_match_wo_barcode) ∨
  (st'.no_match = st.no_match ∧ st'.semimatch = st.semimatch ∧
    st'.bcmatch = st.bcmatch + 1 ∧
    st'.duplicate_match = st.duplicate_match ∧
    st'.duplicate_match_wo_barcode = st.duplicate_match_wo_barcode) ∨
  (st'.no_match = st.no_match ∧ st'.semimatch = st.semimatch ∧
    st'.bcmatch = st.bcmatch ∧
    st'.duplicate_match = st.duplicate_match + 1 ∧
    st'.duplicate_match_wo_barcode = st.duplicate_match_wo_barcode) ∨
  (st'.no_match = st.no_match ∧ st'.semimatch = st.semimatch ∧
    st'.bcmatch = st.bcmatch ∧ st'.duplicate_match = st.duplicate_match ∧
    st'.duplicate_match_wo_barcode =
      st.duplicate_match_wo_barcode + 1)

/-! ## Finalizing the sparse allele dictionaries (lines 252-310) -/

/-- The `ValueError` raised at lines 269-271 and 299-302 when the parallel
arrays built during conversion differ in length (the spec's
`ConsistencyError`). -/
inductive WriteError
  | valueError
deriving DecidableEq, Repr

/-- One iteration of the loop of `_write_reporter_alleles` (lines
292-298): skip a guide with an empty inner dict, otherwise extend `guides`
with the guide index once per inner entry and append each allele and its
count. -/
def reporter_allele_step (acc : List Nat × List Allele × List Int)
    (p : Nat × CountDict Allele) : List Nat × List Allele × List Int :=
  if p.2.length = 0 then acc
  else
    (acc.1 ++ List.replicate p.2.length p.1,
     acc.2.1 ++ p.2.map fun q => q.1,
     acc.2.2 ++ p.2.map fun q => q.2)

/-- The three parallel arrays `_write_reporter_alleles` builds from
`self.guide_to_allele` (lines 288-298). -/
def reporter_allele_arrays (d : NestedCountDict Allele) :
    List Nat × List Allele × List Int :=
  d.foldl reporter_allele_step ([], [], [])

/-- Embeds `GuideEditCounter._write_reporter_alleles` (lines 288-310): build the
arrays, raise when their lengths differ, otherwise produce the table. -/
def write_reporter_alleles (d : NestedCountDict Allele) :
    Except WriteError (List Nat × List Allele × List Int) :=
  let a := reporter_allele_arrays d
  if ¬(a.1.length = a.2.1.length ∧ a.2.1.length = a.2.2.length) then
    .error .valueError
  else .ok a

/-- One iteration of the loop of `_write_guide_reporter_alleles` (lines
257-265): the inner keys are `(reporter allele, guide allele)` pairs;
arrays in order (guides, guide alleles, reporter alleles, counts). -/
def guide_reporter_allele_step
    (acc : List Nat × List Allele × List Allele × List Int)
    (p : Nat × CountDict (Allele × Allele)) :
    List Nat × List Allele × List Allele × List Int :=
  if p.2.length = 0 then acc
  else
    (acc.1 ++ List.replicate p.2.length p.1,
     acc.2.1 ++ p.2.map fun q => q.1.2,
     acc.2.2.1 ++ p.2.map fun q => q.1.1,
     acc.2.2.2 ++ p.2.map fun q => q.2)

/-- The four parallel arrays `_write_guide_reporter_alleles` builds from
`self.guide_to_guide_reporter_allele` (lines 252-265). -/
def guide_reporter_allele_arrays (d : NestedCountDict (Allele × Allele)) :
    List Nat × List Allele × List Allele × List Int :=
  d.foldl guide_reporter_allele_step ([], [], [], [])

/-- Embeds `GuideEditCounter._write_guide_reporter_alleles` (lines 252-287):
build the arrays, raise when `len(guides) == len(reporter_alleles) ==
len(guide_alleles) == len(counts)` fails, otherwise produce the table. -/
def write_guide_reporter_alleles (d : NestedCountDict (Allele × Allele)) :
    Except WriteError (List Nat × List Allele × List Allele × List Int) :=
  let a := guide_reporter_allele_arrays d
  if ¬(a.1.length = a.2.2.1.length ∧ a.2.2.1.length = a.2.1.length ∧
        a.2.1.length = a.2.2.2.length) then
    .error .valueError
  else .ok a

/-! ## The quality pre-pass (lines 177-193 and 686-742) -/

/-- One FASTQ record: an opaque read identifier, the base sequence and the
per-base Phred qualities. -/
structure FastqRead where
  rname : Nat
  seq : Seq
  qual : List Nat
deriving DecidableEq, Repr

/-- The quality thresholds of the constructor (lines 66-67, 78-81). -/
structure QualityParams where
  min_average_read_quality : Nat
  min_single_bp_quality : Nat
  qend_R1 : Nat
  qend_R2 : Nat
deriving Repr

/-- Failures of the pre-pass: `inputFileError` for the read-name
concordance check, `noReadsAfterQualityFiltering` for the exception of
lines 702-705. -/
inductive PrepassError
  | inputFileError
  | noReadsAfterQualityFiltering
deriving DecidableEq, Repr

/-- Modelled from the spec: `_check_readname_match` lives in
`_supporting_fn`, outside the sources at hand; per section 5 it checks
read-name concordance of R1 and R2 at every index before processing. -/
def check_readname_match (R1 R2 : List FastqRead) : Bool :=
  decide ((R1.map fun r => r.rname) = (R2.map fun r => r.rname))

/-- Modelled from the spec: `_read_is_good_quality` lives in
`_supporting_fn`, outside the sources at hand; per section 4.2 a read
passes when its mean and minimum per-base quality over the first `qend`
bases (0 = full length) clear the two thresholds. -/
def read_is_good_quality (min_avg min_single qend : Nat)
    (r : FastqRead) : Bool :=
  let qs := if qend = 0 then r.qual else r.qual.take qend
  decide (min_avg * qs.length ≤ qs.sum) &&
    qs.all fun q => decide (min_single ≤ q)

/-- Embeds `GuideEditCounter._filter_read_quality` (lines 714-742): the number of
read pairs both of whose mates pass the quality thresholds. -/
def filter_read_quality (p : QualityParams) (R1 R2 : List FastqRead) :
    Nat :=
  ((R1.zip R2).filter fun pr =>
    read_is_good_quality p.min_average_read_quality
        p.min_single_bp_quality p.qend_R1 pr.1 &&
      read_is_good_quality p.min_average_read_quality
        p.min_single_bp_quality p.qend_R2 pr.2).length

/-- Embeds `GuideEditCounter._check_names_filter_fastq` (lines 686-712): check
read-name concordance, then either quality-filter (raising when nothing
survives) or set `n_reads_after_filtering = n_total_reads`.  The number of
input read pairs (`self.n_total_reads`) is `R1.length`. -/
def check_names_filter_fastq (p : QualityParams)
    (R1 R2 : List FastqRead) (filter_by_qual : Bool) :
    Except PrepassError Nat :=
  if ¬ check_readname_match R1 R2 then .error .inputFileError
  else if filter_by_qual then
    let n := filter_read_quality p R1 R2
    if n = 0 then .error .noReadsAfterQualityFiltering
    else .ok n
  else .ok R1.length

/-- Embeds `GuideEditCounter.check_filter_fastq` (lines 177-193): the public
pre-pass entry point falls through to `_check_names_filter_fastq` with its
default argument `filter_by_qual=False`.  (The filesystem fast path of
lines 188-191, which skips the call entirely when previously filtered
files exist on disk, is pure I/O and not modelled.) -/
def check_filter_fastq (p : QualityParams) (R1 R2 : List FastqRead) :
    Except PrepassError Nat :=
  check_names_filter_fastq p R1 R2 false

/-! ## Concrete scenario data

The spec's concrete scenario (section 8): edited-from `C`, edited-to `T`;
a guide with sequence `ACGTACGT` and barcode `TTAA`; read pairs whose R1
guide window and R2 barcode window hit it.  `demoGuide2` shares
`demoGuide`'s masked sequence (`ATGTATGT`) under a distinct barcode. -/

/-- The scenario configuration: `C`-to-`T` editing, empty anchors (the
guide window starts at the head of R1), barcode length 4, the default
score threshold 80, every toggle off. -/
def demoCfg : CountConfig where
  base_edited_from := 'C'
  base_edited_to := 'T'
  guide_start_seq := []
  guide_end_seq := []
  guide_bc_len := 4
  align_score_threshold := 80
  count_guide_edits := false
  count_reporter_edits := false
  count_guide_reporter_alleles := false

/-- The scenario guide `g1`: sequence `ACGTACGT`, barcode `TTAA`, with the
masked columns `_set_sgRNA_df` computes for them under `C`-to-`T`. -/
def demoGuide : LoadedGuide where
  sequence := ['A', 'C', 'G', 'T', 'A', 'C', 'G', 'T']
  barcode := ['T', 'T', 'A', 'A']
  masked_sequence := ['A', 'T', 'G', 'T', 'A', 'T', 'G', 'T']
  masked_barcode := ['T', 'T', 'A', 'A']

/-- A second guide whose masked sequence coincides with `demoGuide`'s but
whose barcode `GGCC` differs. -/
def demoGuide2 : LoadedGuide where
  sequence := ['A', 'T', 'G', 'T', 'A', 'T', 'G', 'T']
  barcode := ['G', 'G', 'C', 'C']
  masked_sequence := ['A', 'T', 'G', 'T', 'A', 'T', 'G', 'T']
  masked_barcode := ['G', 'G', 'T', 'T']

/-- A read pair whose R1 guide window (the first eight bases) reads
`ACGTACGT` and whose R2 barcode window reverse-complements to `TTAA`. -/
def demoRead : ReadPair where
  R1_seq := ['A', 'C', 'G', 'T', 'A', 'C', 'G', 'T', 'A']
  R2_seq := ['T', 'T', 'A', 'A']

/-- An oracle whose reporter alignment scores 0 (below every positive
threshold) while the guide alignment is clean. -/
def oracleLowScore : AlignOracle where
  guideCall := fun _ _ => (⟨[]⟩, 100)
  reporterCall := fun _ _ => (⟨[]⟩, 0)

/-- An oracle whose guide-spacer alignment calls one `C`-to-`T` edit at
position 1 with a clean score, as the spec's second concrete scenario
describes. -/
def oracleGuideEdit : AlignOracle where
  guideCall := fun _ _ => (⟨[⟨1, 'C', 'T'⟩]⟩, 100)
  reporterCall := fun _ _ => (⟨[]⟩, 100)

/-- A guide table input with `name` and `sequence` columns but no
`barcode` column. -/
def dfWithoutBarcodeCol : GuideInfoDf where
  columns := [GuideCol.name, GuideCol.sequence]
  rows := [{ guide_name := 0, sequence := ['A'], barcode := [] }]

end CrisprBean

namespace CrisprBean

theorem maskBase_eq_iff (f t a b : Char) :
    maskBase f t a = maskBase f t b ↔
      a = b ∨ (a = f ∧ b = t) ∨ (a = t ∧ b = f) := by
  unfold maskBase
  by_cases haf : a = f
  · by_cases hbf : b = f
    · subst haf; subst hbf; simp
    · subst haf; rw [if_pos rfl, if_neg hbf]
      constructor
      · intro h; exact Or.inr (Or.inl ⟨rfl, h.symm⟩)
      · rintro (h | ⟨-, h2⟩ | ⟨-, h2⟩)
        · exact absurd h.symm hbf
        · exact h2.symm
        · exact absurd h2 hbf
  · by_cases hbf : b = f
    · subst hbf; rw [if_neg haf, if_pos rfl]
      constructor
      · intro h; exact Or.inr (Or.inr ⟨h, rfl⟩)
      · rintro (h | ⟨h1, -⟩ | ⟨h1, -⟩)
        · exact absurd h haf
        · exact absurd h1 haf
        · exact h1
    · rw [if_neg haf, if_neg hbf]
      constructor
      · intro h; exact Or.inl h
      · rintro (h | ⟨h1, -⟩ | ⟨-, h2⟩)
        · exact h
        · exact absurd h1 haf
        · exact absurd h2 hbf

theorem mask_eq_iff_forall₂ (f t : Char) (s1 s2 : Seq) :
    mask f t s1 = mask f t s2 ↔
      List.Forall₂ (fun a b => a = b ∨ (a = f ∧ b = t) ∨ (a = t ∧ b = f))
        s1 s2 := by
  induction s1 generalizing s2 with
  | nil => cases s2 <;> simp [mask]
  | cons a l ih =>
    cases s2 with
    | nil => simp [mask]
    | cons b m =>
      simp only [mask, List.map_cons, List.cons.injEq, List.forall₂_cons]
      rw [← maskBase_eq_iff f t a b]
      constructor
      · rintro ⟨h1, h2⟩; exact ⟨h1, (ih m).mp h2⟩
      · rintro ⟨h1, h2⟩; exact ⟨h1, (ih m).mpr h2⟩

/-- Claim C5: masked equality (replacing every occurrence of the
edited-from base with the edited-to base in both strings before
comparing) is reflexive, and two strings are masked-equal exactly when
they have equal length and differ only at positions where one has the
edited-from base and the other the edited-to base. -/
theorem masked_equal_refl_and_characterization :
    (∀ (f t : Char) (s : Seq), masked_equal f t s s = true) ∧
    ∀ (f t : Char) (s1 s2 : Seq),
      masked_equal f t s1 s2 = true ↔
        s1.length = s2.length ∧
          ∀ (i : Nat) (h1 : i < s1.length) (h2 : i < s2.length),
            s1.get ⟨i, h1⟩ ≠ s2.get ⟨i, h2⟩ →
              (s1.get ⟨i, h1⟩ = f ∧ s2.get ⟨i, h2⟩ = t) ∨
                (s1.get ⟨i, h1⟩ = t ∧ s2.get ⟨i, h2⟩ = f) := by
  constructor
  · intro f t s; simp [masked_equal]
  · intro f t s1 s2
    rw [masked_equal, decide_eq_true_iff, mask_eq_iff_forall₂,
      List.forall₂_iff_get]
    constructor
    · rintro ⟨hlen, h⟩
      refine ⟨hlen, fun i h1 h2 hne => ?_⟩
      rcases h i h1 h2 with heq | hft | htf
      · exact absurd heq hne
      · exact Or.inl hft
      · exact Or.inr htf
    · rintro ⟨hlen, h⟩
      refine ⟨hlen, fun i h1 h2 => ?_⟩
      by_cases hne : s1.get ⟨i, h1⟩ = s2.get ⟨i, h2⟩
      · exact Or.inl hne
      · rcases h i h1 h2 hne with hft | htf
        · exact Or.inr (Or.inl hft)
        · exact Or.inr (Or.inr htf)

theorem match_step_fst_eq_filter (cfg : CountConfig)
    (gs : List LoadedGuide) (R1_seq guide_barcode : Seq)
    (acc : List Nat × List Nat) (guide_length : Nat)
    (h : acc.1 = acc.2.filter fun i =>
      decide (i ∈ bc_match_idx cfg.base_edited_from cfg.base_edited_to gs
        guide_barcode)) :
    (match_step cfg gs R1_seq guide_barcode acc guide_length).1 =
      (match_step cfg gs R1_seq guide_barcode acc guide_length).2.filter
        fun i =>
          decide (i ∈ bc_match_idx cfg.base_edited_from
            cfg.base_edited_to gs guide_barcode) := by
  unfold match_step
  split
  · exact h
  · simp only
    rw [List.filter_append, h]

theorem match_fold_fst_eq_filter (cfg : CountConfig)
    (gs : List LoadedGuide) (R1_seq guide_barcode : Seq)
    (Ls : List Nat) :
    ∀ acc : List Nat × List Nat,
      (acc.1 = acc.2.filter fun i =>
        decide (i ∈ bc_match_idx cfg.base_edited_from
          cfg.base_edited_to gs guide_barcode)) →
      (Ls.foldl (match_step cfg gs R1_seq guide_barcode) acc).1 =
        (Ls.foldl (match_step cfg gs R1_seq guide_barcode) acc).2.filter
          fun i =>
            decide (i ∈ bc_match_idx cfg.base_edited_from
              cfg.base_edited_to gs guide_barcode) := by
  induction Ls with
  | nil => intro acc h; exact h
  | cons L Ls ih =>
    intro acc h
    exact ih _ (match_step_fst_eq_filter cfg gs R1_seq guide_barcode acc
      L h)

theorem match_read_fst_eq_filter (cfg : CountConfig)
    (gs : List LoadedGuide) (R1_seq R2_seq : Seq) :
    (match_read_to_sgRNA_bcmatch_semimatch cfg gs R1_seq R2_seq).1 =
      (match_read_to_sgRNA_bcmatch_semimatch cfg gs R1_seq
        R2_seq).2.filter fun i =>
          decide (i ∈ bc_match_idx cfg.base_edited_from
            cfg.base_edited_to gs (get_barcode cfg R1_seq R2_seq)) := by
  unfold match_read_to_sgRNA_bcmatch_semimatch
  exact match_fold_fst_eq_filter cfg gs R1_seq
    (get_barcode cfg R1_seq R2_seq) (guide_lengths gs) ([], []) rfl

/-- Claim C1: the barcode-matched index list is the intersection of the
guide-sequence match set (unioned over all distinct guide lengths) and the
barcode match set; classification follows the policy on the cardinalities
of the two lists, and in the concrete two-guide scenario (identical masked
sequences, distinct barcodes, the read's barcode matching only the first)
the read classifies as a unique barcode match of that first guide, not as
a duplicate. -/
theorem classification_follows_matched_set_policy :
    (∀ (cfg : CountConfig) (gs : List LoadedGuide) (R1_seq R2_seq : Seq)
        (i : Nat),
      i ∈ (match_read_to_sgRNA_bcmatch_semimatch cfg gs R1_seq
          R2_seq).1 ↔
        i ∈ (match_read_to_sgRNA_bcmatch_semimatch cfg gs R1_seq
          R2_seq).2 ∧
          i ∈ bc_match_idx cfg.base_edited_from cfg.base_edited_to gs
            (get_barcode cfg R1_seq R2_seq)) ∧
    (∀ (cfg : CountConfig) (gs : List LoadedGuide) (R1_seq R2_seq : Seq),
      ((match_read_to_sgRNA_bcmatch_semimatch cfg gs R1_seq
          R2_seq).1.length = 1 →
        classify_read cfg gs R1_seq R2_seq =
          .bcmatch ((match_read_to_sgRNA_bcmatch_semimatch cfg gs R1_seq
            R2_seq).1.headD 0)) ∧
      (2 ≤ (match_read_to_sgRNA_bcmatch_semimatch cfg gs R1_seq
          R2_seq).1.length →
        classify_read cfg gs R1_seq R2_seq = .duplicate_match) ∧
      ((match_read_to_sgRNA_bcmatch_semimatch cfg gs R1_seq
          R2_seq).1.length = 0 →
        (match_read_to_sgRNA_bcmatch_semimatch cfg gs R1_seq
          R2_seq).2.length = 0 →
        classify_read cfg gs R1_seq R2_seq = .no_match) ∧
      ((match_read_to_sgRNA_bcmatch_semimatch cfg gs R1_seq
          R2_seq).1.length = 0 →
        (match_read_to_sgRNA_bcmatch_semimatch cfg gs R1_seq
          R2_seq).2.length = 1 →
        classify_read cfg gs R1_seq R2_seq =
          .semimatch ((match_read_to_sgRNA_bcmatch_semimatch cfg gs
            R1_seq R2_seq).2.headD 0)) ∧
      ((match_read_to_sgRNA_bcmatch_semimatch cfg gs R1_seq
          R2_seq).1.length = 0 →
        2 ≤ (match_read_to_sgRNA_bcmatch_semimatch cfg gs R1_seq
          R2_seq).2.length →
        classify_read cfg gs R1_seq R2_seq =
          .duplicate_match_wo_barcode)) ∧
    (demoGuide.masked_sequence = demoGuide2.masked_sequence ∧
      demoGuide.barcode ≠ demoGuide2.barcode ∧
      (match_read_to_sgRNA_bcmatch_semimatch demoCfg
        [demoGuide, demoGuide2] demoRead.R1_seq demoRead.R2_seq).2 =
        [0, 1] ∧
      bc_match_idx 'C' 'T' [demoGuide, demoGuide2]
        (get_barcode demoCfg demoRead.R1_seq demoRead.R2_seq) = [0] ∧
      classify_read demoCfg [demoGuide, demoGuide2] demoRead.R1_seq
        demoRead.R2_seq = .bcmatch 0) := by
  refine ⟨?_, ?_, ?_⟩
  · intro cfg gs R1_seq R2_seq i
    rw [match_read_fst_eq_filter cfg gs R1_seq R2_seq, List.mem_filter,
      decide_eq_true_iff]
  · intro cfg gs R1_seq R2_seq
    refine ⟨?_, ?_, ?_, ?_, ?_⟩
    · intro h
      simp only [classify_read]
      rw [if_neg (by omega), if_neg (by omega)]
    · intro h
      simp only [classify_read]
      rw [if_neg (by omega), if_pos h]
    · intro h1 h2
      simp only [classify_read]
      rw [if_pos h1, if_pos h2]
    · intro h1 h2
      simp only [classify_read]
      rw [if_pos h1, if_neg (by omega), if_neg (by omega)]
    · intro h1 h2
      simp only [classify_read]
      rw [if_pos h1, if_neg (by omega), if_pos h2]
  · exact ⟨by decide, by decide, by decide, by decide, by decide⟩

theorem count_reporter_edits_low_score (cfg : CountConfig)
    (oracle : AlignOracle) (g : Nat) (r : ReadPair) (ga : Option Allele)
    (st : RunState)
    (h : (oracle.reporterCall g r).2 < cfg.align_score_threshold) :
    count_reporter_edits cfg oracle g r ga st =
      { st with semimatch := st.semimatch + 1,
                bcmatch := st.bcmatch - 1 } := by
  simp only [count_reporter_edits]
  rw [if_pos h]

theorem count_reporter_edits_high_counters (cfg : CountConfig)
    (oracle : AlignOracle) (g : Nat) (r : ReadPair) (ga : Option Allele)
    (st : RunState)
    (h : ¬ (oracle.reporterCall g r).2 < cfg.align_score_threshold) :
    (count_reporter_edits cfg oracle g r ga st).no_match = st.no_match ∧
    (count_reporter_edits cfg oracle g r ga st).semimatch =
      st.semimatch ∧
    (count_reporter_edits cfg oracle g r ga st).bcmatch = st.bcmatch ∧
    (count_reporter_edits cfg oracle g r ga st).duplicate_match =
      st.duplicate_match ∧
    (count_reporter_edits cfg oracle g r ga
        st).duplicate_match_wo_barcode =
      st.duplicate_match_wo_barcode ∧
    (count_reporter_edits cfg oracle g r ga st).X = st.X ∧
    (count_reporter_edits cfg oracle g r ga st).X_bcmatch =
      st.X_bcmatch ∧
    (count_reporter_edits cfg oracle g r ga st).guide_edit_counts =
      st.guide_edit_counts := by
  simp only [count_reporter_edits]
  rw [if_neg h]
  cases ga <;> by_cases h1 : cfg.count_reporter_edits <;>
    by_cases h2 : cfg.count_guide_reporter_alleles <;> simp [h1, h2]

theorem countersSum_count_reporter_edits (cfg : CountConfig)
    (oracle : AlignOracle) (g : Nat) (r : ReadPair) (ga : Option Allele)
    (st : RunState) :
    countersSum (count_reporter_edits cfg oracle g r ga st) =
      countersSum st := by
  by_cases h : (oracle.reporterCall g r).2 < cfg.align_score_threshold
  · rw [count_reporter_edits_low_score cfg oracle g r ga st h]
    simp only [countersSum]
    ring
  · obtain ⟨h1, h2, h3, h4, h5, -⟩ :=
      count_reporter_edits_high_counters cfg oracle g r ga st h
    simp only [countersSum, h1, h2, h3, h4, h5]

theorem countersSum_process_read_pair (cfg : CountConfig)
    (gs : List LoadedGuide) (oracle : AlignOracle) (st : RunState)
    (r : ReadPair) :
    countersSum (process_read_pair cfg gs oracle st r) =
      countersSum st + 1 := by
  simp only [process_read_pair]
  split
  · split
    · simp only [countersSum]; ring
    · split
      · simp only [countersSum]; ring
      · simp only [countersSum]; ring
  · split
    · simp only [countersSum]; ring
    · split
      · split
        · rw [countersSum_count_reporter_edits]
          simp only [countersSum]; ring
        · rw [countersSum_count_reporter_edits]
          simp only [countersSum]; ring
      · simp only [countersSum]; ring

theorem countersSum_foldl (cfg : CountConfig) (gs : List LoadedGuide)
    (oracle : AlignOracle) (reads : List ReadPair) :
    ∀ st : RunState,
      countersSum (reads.foldl (process_read_pair cfg gs oracle) st) =
        countersSum st + reads.length := by
  induction reads with
  | nil => intro st; simp
  | cons r reads ih =>
    intro st
    simp only [List.foldl_cons, List.length_cons]
    rw [ih, countersSum_process_read_pair]
    push_cast
    ring

theorem one_counter_increment_process_read_pair (cfg : CountConfig)
    (gs : List LoadedGuide) (oracle : AlignOracle) (st : RunState)
    (r : ReadPair) :
    OneCounterIncrement st (process_read_pair cfg gs oracle st r) := by
  simp only [process_read_pair]
  split
  · split
    · exact Or.inl (by simp)
    · split
      · exact Or.inr (Or.inr (Or.inr (Or.inr (by simp))))
      · exact Or.inr (Or.inl (by simp))
  · split
    · exact Or.inr (Or.inr (Or.inr (Or.inl (by simp))))
    · have key : ∀ ga,
          OneCounterIncrement st
            (count_reporter_edits cfg oracle
              ((match_read_to_sgRNA_bcmatch_semimatch cfg gs r.R1_seq
                r.R2_seq).1.headD 0) r ga
              { st with
                  X_bcmatch := bumpAt st.X_bcmatch
                    ((match_read_to_sgRNA_bcmatch_semimatch cfg gs
                      r.R1_seq r.R2_seq).1.headD 0)
                  bcmatch := st.bcmatch + 1 }) := by
        intro ga
        by_cases hsc :
          (oracle.reporterCall
            ((match_read_to_sgRNA_bcmatch_semimatch cfg gs r.R1_seq
              r.R2_seq).1.headD 0) r).2 < cfg.align_score_threshold
        · rw [count_reporter_edits_low_score _ _ _ _ _ _ hsc]
          refine Or.inr (Or.inl ?_)
          refine ⟨by simp, by simp, ?_, by simp, by simp⟩
          simp only
          omega
        · obtain ⟨h1, h2, h3, h4, h5, -⟩ :=
            count_reporter_edits_high_counters cfg oracle _ r ga _ hsc
          refine Or.inr (Or.inr (Or.inl ?_))
          rw [h1, h2, h3, h4, h5]
          exact ⟨rfl, rfl, rfl, rfl, rfl⟩
      split
      · split
        · exact key _
        · exact key _
      · exact Or.inr (Or.inr (Or.inl (by simp)))

/-- Claim C2: each processed read pair changes the five-counter sum by
exactly one (incrementing exactly one of the five counters net of the
reclassification, which preserves the sum), so after a completed run over
the read stream the counters sum to the number of processed read pairs. -/
theorem counters_sum_invariant :
    (∀ (cfg : CountConfig) (gs : List LoadedGuide) (oracle : AlignOracle)
        (st : RunState) (r : ReadPair),
      countersSum (process_read_pair cfg gs oracle st r) =
        countersSum st + 1) ∧
    (∀ (cfg : CountConfig) (gs : List LoadedGuide) (oracle : AlignOracle)
        (st : RunState) (r : ReadPair),
      OneCounterIncrement st (process_read_pair cfg gs oracle st r)) ∧
    (∀ (cfg : CountConfig) (oracle : AlignOracle) (g : Nat) (r : ReadPair)
        (ga : Option Allele) (st : RunState),
      countersSum (count_reporter_edits cfg oracle g r ga st) =
        countersSum st) ∧
    (∀ (cfg : CountConfig) (gs : List LoadedGuide) (oracle : AlignOracle)
        (reads : List ReadPair),
      countersSum (get_guide_counts_bcmatch_semimatch cfg gs oracle
        reads) = reads.length) := by
  refine ⟨countersSum_process_read_pair, ?_,
    countersSum_count_reporter_edits, ?_⟩
  · exact one_counter_increment_process_read_pair
  · intro cfg gs oracle reads
    unfold get_guide_counts_bcmatch_semimatch
    rw [countersSum_foldl]
    simp [countersSum, initialRunState]

/-- Claim C3: on a barcode-matched read whose reporter alignment scores
below the threshold, the read is reclassified (`semimatch` incremented,
`bcmatch` decremented) and nothing else of the state changes — in
particular no reporter allele and no joint allele is recorded; at or above
the threshold the counters are untouched and the reporter allele is
recorded for the matched guide. -/
theorem low_score_reclassifies_bcmatch_to_semimatch (cfg : CountConfig)
    (oracle : AlignOracle) (g : Nat) (r : ReadPair) (ga : Option Allele)
    (st : RunState) (hrep : cfg.count_reporter_edits = true) :
    ((oracle.reporterCall g r).2 < cfg.align_score_threshold →
      count_reporter_edits cfg oracle g r ga st =
        { st with semimatch := st.semimatch + 1,
                  bcmatch := st.bcmatch - 1 }) ∧
    (cfg.align_score_threshold ≤ (oracle.reporterCall g r).2 →
      (count_reporter_edits cfg oracle g r ga st).bcmatch = st.bcmatch ∧
      (count_reporter_edits cfg oracle g r ga st).semimatch =
        st.semimatch ∧
      (count_reporter_edits cfg oracle g r ga st).guide_to_allele =
        update_counted Allele st.guide_to_allele g
          (oracle.reporterCall g r).1) := by
  constructor
  · intro h
    exact count_reporter_edits_low_score cfg oracle g r ga st h
  · intro h
    have h' : ¬ (oracle.reporterCall g r).2 < cfg.align_score_threshold :=
      not_lt.mpr h
    obtain ⟨-, -, h3, -, -, -, -, -⟩ :=
      count_reporter_edits_high_counters cfg oracle g r ga st h'
    refine ⟨h3, ?_, ?_⟩ <;>
      · simp only [count_reporter_edits]
        rw [if_neg h']
        cases ga <;>
          by_cases h2 : cfg.count_guide_reporter_alleles <;>
            simp [hrep, h2]

theorem low_score_reclassification_witness :
    count_reporter_edits { demoCfg with count_reporter_edits := true }
        oracleLowScore 0 demoRead none initialRunState =
      { initialRunState with
          semimatch := initialRunState.semimatch + 1,
          bcmatch := initialRunState.bcmatch - 1 } :=
  (low_score_reclassifies_bcmatch_to_semimatch
    { demoCfg with count_reporter_edits := true } oracleLowScore 0
    demoRead none initialRunState rfl).1 (by decide)

/-- Claim C9: when a unique-barcode-match read is reclassified to
`semimatch` by a low reporter score, only the two scalar counters change:
the `X_bcmatch` cell of the matched guide keeps its increment, the
semimatch layer `X` is untouched, the dictionaries are untouched, and the
total matrix (semimatch layer plus bcmatch layer) still counts the read as
barcode-matched while the scalar counters count it as a semimatch. -/
theorem reclassified_read_keeps_bcmatch_matrix_cell (cfg : CountConfig)
    (gs : List LoadedGuide) (oracle : AlignOracle) (st : RunState)
    (r : ReadPair) (g : Nat)
    (hg : (match_read_to_sgRNA_bcmatch_semimatch cfg gs r.R1_seq
      r.R2_seq).1 = [g])
    (hlow : (oracle.reporterCall g r).2 < cfg.align_score_threshold)
    (hrep : cfg.count_reporter_edits = true) :
    (process_read_pair cfg gs oracle st r).X_bcmatch =
      bumpAt st.X_bcmatch g ∧
    (process_read_pair cfg gs oracle st r).X = st.X ∧
    (process_read_pair cfg gs oracle st r).bcmatch = st.bcmatch ∧
    (process_read_pair cfg gs oracle st r).semimatch =
      st.semimatch + 1 ∧
    (process_read_pair cfg gs oracle st r).no_match = st.no_match ∧
    (process_read_pair cfg gs oracle st r).duplicate_match =
      st.duplicate_match ∧
    (process_read_pair cfg gs oracle st r).duplicate_match_wo_barcode =
      st.duplicate_match_wo_barcode ∧
    (process_read_pair cfg gs oracle st r).guide_to_allele =
      st.guide_to_allele ∧
    (process_read_pair cfg gs oracle st
        r).guide_to_guide_reporter_allele =
      st.guide_to_guide_reporter_allele ∧
    (process_read_pair cfg gs oracle st r).guide_edit_counts =
      st.guide_edit_counts ∧
    screen_X (process_read_pair cfg gs oracle st r) g =
      screen_X st g + 1 := by
  have hcre : ∀ (ga : Option Allele) (st1 : RunState),
      count_reporter_edits cfg oracle g r ga st1 =
        { st1 with semimatch := st1.semimatch + 1,
                   bcmatch := st1.bcmatch - 1 } :=
    fun ga st1 => count_reporter_edits_low_score cfg oracle g r ga st1
      hlow
  have hst : process_read_pair cfg gs oracle st r =
      { st with
          X_bcmatch := bumpAt st.X_bcmatch g
          bcmatch := st.bcmatch + 1 - 1
          semimatch := st.semimatch + 1 } := by
    simp only [process_read_pair, hg, List.length_singleton,
      List.headD_cons]
    rw [if_neg (by omega), if_neg (by omega)]
    simp only [hrep, eq_self_iff_true, if_true, hcre, ite_self]
  rw [hst]
  refine ⟨rfl, rfl, by simp, by simp, rfl, rfl, rfl, rfl, rfl, rfl, ?_⟩
  simp [screen_X, bumpAt]
  omega

theorem reclassified_read_keeps_bcmatch_matrix_cell_witness :
    (process_read_pair { demoCfg with count_reporter_edits := true }
        [demoGuide] oracleLowScore initialRunState demoRead).semimatch =
      initialRunState.semimatch + 1 ∧
    (process_read_pair { demoCfg with count_reporter_edits := true }
        [demoGuide] oracleLowScore initialRunState demoRead).bcmatch =
      initialRunState.bcmatch ∧
    (process_read_pair { demoCfg with count_reporter_edits := true }
        [demoGuide] oracleLowScore initialRunState demoRead).X_bcmatch =
      bumpAt initialRunState.X_bcmatch 0 := by
  have h := reclassified_read_keeps_bcmatch_matrix_cell
    { demoCfg with count_reporter_edits := true } [demoGuide]
    oracleLowScore initialRunState demoRead 0 (by decide) (by decide)
    rfl
  exact ⟨h.2.2.2.1, h.2.2.1, h.1⟩

theorem count_reporter_edits_guide_edit_counts (cfg : CountConfig)
    (oracle : AlignOracle) (g : Nat) (r : ReadPair) (ga : Option Allele)
    (st : RunState) :
    (count_reporter_edits cfg oracle g r ga st).guide_edit_counts =
      st.guide_edit_counts := by
  by_cases h : (oracle.reporterCall g r).2 < cfg.align_score_threshold
  · rw [count_reporter_edits_low_score _ _ _ _ _ _ h]
  · exact
      (count_reporter_edits_high_counters _ _ _ _ _ _ h).2.2.2.2.2.2.2

theorem process_read_pair_guide_edit_counts (cfg : CountConfig)
    (gs : List LoadedGuide) (oracle : AlignOracle) (st : RunState)
    (r : ReadPair) :
    (process_read_pair cfg gs oracle st r).guide_edit_counts =
      st.guide_edit_counts := by
  simp only [process_read_pair]
  split
  · split
    · rfl
    · split
      · rfl
      · rfl
  · split
    · rfl
    · split
      · split
        · rw [count_reporter_edits_guide_edit_counts]
        · rw [count_reporter_edits_guide_edit_counts]
      · rfl

theorem foldl_guide_edit_counts (cfg : CountConfig)
    (gs : List LoadedGuide) (oracle : AlignOracle)
    (reads : List ReadPair) :
    ∀ st : RunState,
      ((reads.foldl (process_read_pair cfg gs oracle)
        st).guide_edit_counts) = st.guide_edit_counts := by
  induction reads with
  | nil => intro st; rfl
  | cons r reads ih =>
    intro st
    rw [List.foldl_cons, ih, process_read_pair_guide_edit_counts]

/-- Claim C4 (refuted by the code): the classification loop never writes
into `screen.uns["guide_edit_counts"]` — `_count_guide_edits` computes the
guide-spacer allele and returns it without recording, and no caller stores
it — so the guide-edit table is empty after every run, even one that
classifies a read as a barcode match with guide-editing counting enabled
and a called edit. -/
theorem guide_edit_counts_never_recorded :
    (∀ (cfg : CountConfig) (gs : List LoadedGuide)
        (oracle : AlignOracle) (reads : List ReadPair),
      (get_guide_counts_bcmatch_semimatch cfg gs oracle
        reads).guide_edit_counts = []) ∧
    (({ demoCfg with count_guide_edits := true } :
        CountConfig).count_guide_edits = true ∧
      (oracleGuideEdit.guideCall 0 demoRead).1.edits ≠ [] ∧
      (get_guide_counts_bcmatch_semimatch
        { demoCfg with count_guide_edits := true } [demoGuide]
        oracleGuideEdit [demoRead]).bcmatch = 1 ∧
      (get_guide_counts_bcmatch_semimatch
        { demoCfg with count_guide_edits := true } [demoGuide]
        oracleGuideEdit [demoRead]).guide_edit_counts = []) := by
  constructor
  · intro cfg gs oracle reads
    unfold get_guide_counts_bcmatch_semimatch
    rw [foldl_guide_edit_counts]
    rfl
  · exact ⟨rfl, by decide, by decide, by decide⟩

theorem reporter_allele_fold_lengths (d : NestedCountDict Allele) :
    ∀ acc : List Nat × List Allele × List Int,
      acc.1.length = acc.2.1.length → acc.2.1.length = acc.2.2.length →
      (d.foldl reporter_allele_step acc).1.length =
          (d.foldl reporter_allele_step acc).2.1.length ∧
        (d.foldl reporter_allele_step acc).2.1.length =
          (d.foldl reporter_allele_step acc).2.2.length := by
  induction d with
  | nil => intro acc h1 h2; exact ⟨h1, h2⟩
  | cons p d ih =>
    intro acc h1 h2
    rw [List.foldl_cons]
    by_cases hp : p.2.length = 0
    · exact ih _ (by simp [reporter_allele_step, hp, h1])
        (by simp [reporter_allele_step, hp, h2])
    · exact ih _ (by simp [reporter_allele_step, hp, h1])
        (by simp [reporter_allele_step, hp, h2])

theorem guide_reporter_allele_fold_lengths
    (d : NestedCountDict (Allele × Allele)) :
    ∀ acc : List Nat × List Allele × List Allele × List Int,
      acc.1.length = acc.2.1.length →
      acc.2.1.length = acc.2.2.1.length →
      acc.2.2.1.length = acc.2.2.2.length →
      (d.foldl guide_reporter_allele_step acc).1.length =
          (d.foldl guide_reporter_allele_step acc).2.1.length ∧
        (d.foldl guide_reporter_allele_step acc).2.1.length =
          (d.foldl guide_reporter_allele_step acc).2.2.1.length ∧
        (d.foldl guide_reporter_allele_step acc).2.2.1.length =
          (d.foldl guide_reporter_allele_step acc).2.2.2.length := by
  induction d with
  | nil => intro acc h1 h2 h3; exact ⟨h1, h2, h3⟩
  | cons p d ih =>
    intro acc h1 h2 h3
    rw [List.foldl_cons]
    by_cases hp : p.2.length = 0
    · exact ih _ (by simp [guide_reporter_allele_step, hp, h1])
        (by simp [guide_reporter_allele_step, hp, h2])
        (by simp [guide_reporter_allele_step, hp, h3])
    · exact ih _ (by simp [guide_reporter_allele_step, hp, h1])
        (by simp [guide_reporter_allele_step, hp, h2])
        (by simp [guide_reporter_allele_step, hp, h3])

/-- Claim C8: the parallel arrays built while converting the sparse allele
dictionaries to tabular form always have equal lengths, for every possible
dictionary content, so the explicit length check never raises and both
finalizers return their tables. -/
theorem finalize_parallel_arrays_equal_length :
    (∀ d : NestedCountDict Allele,
      ((reporter_allele_arrays d).1.length =
          (reporter_allele_arrays d).2.1.length ∧
        (reporter_allele_arrays d).2.1.length =
          (reporter_allele_arrays d).2.2.length) ∧
      write_reporter_alleles d = .ok (reporter_allele_arrays d)) ∧
    ∀ d : NestedCountDict (Allele × Allele),
      ((guide_reporter_allele_arrays d).1.length =
          (guide_reporter_allele_arrays d).2.1.length ∧
        (guide_reporter_allele_arrays d).2.1.length =
          (guide_reporter_allele_arrays d).2.2.1.length ∧
        (guide_reporter_allele_arrays d).2.2.1.length =
          (guide_reporter_allele_arrays d).2.2.2.length) ∧
      write_guide_reporter_alleles d =
        .ok (guide_reporter_allele_arrays d) := by
  constructor
  · intro d
    obtain ⟨h1, h2⟩ :=
      reporter_allele_fold_lengths d ([], [], []) rfl rfl
    refine ⟨⟨h1, h2⟩, ?_⟩
    unfold write_reporter_alleles
    rw [if_neg (not_not_intro ⟨h1, h2⟩)]
  · intro d
    obtain ⟨h1, h2, h3⟩ :=
      guide_reporter_allele_fold_lengths d ([], [], [], []) rfl rfl rfl
    refine ⟨⟨h1, h2, h3⟩, ?_⟩
    unfold write_guide_reporter_alleles
    rw [if_neg (not_not_intro ⟨h1.trans h2, h2.symm, h2.trans h3⟩)]

/-- Claim C10: the public quality pre-pass entry point never applies
quality filtering — it calls `_check_names_filter_fastq` with its default
`filter_by_qual=False`, so on success `n_reads_after_filtering` equals
the number of input read pairs regardless of the configured thresholds,
`NoReadsAfterQualityFiltering` is never raised on this path, and that
exception is reachable only when the flag is passed as true. -/
theorem prepass_never_quality_filters :
    (∀ (p : QualityParams) (R1 R2 : List FastqRead),
      check_filter_fastq p R1 R2 =
        check_names_filter_fastq p R1 R2 false) ∧
    (∀ (p : QualityParams) (R1 R2 : List FastqRead) (n : Nat),
      check_filter_fastq p R1 R2 = .ok n → n = R1.length) ∧
    (∀ (p : QualityParams) (R1 R2 : List FastqRead),
      check_filter_fastq p R1 R2 ≠
        .error .noReadsAfterQualityFiltering) ∧
    (∀ (p : QualityParams) (R1 R2 : List FastqRead) (b : Bool),
      check_names_filter_fastq p R1 R2 b =
          .error .noReadsAfterQualityFiltering →
        b = true) := by
  refine ⟨fun p R1 R2 => rfl, ?_, ?_, ?_⟩
  · intro p R1 R2 n h
    unfold check_filter_fastq check_names_filter_fastq at h
    split at h
    · exact absurd h (by simp)
    · simp only [Bool.false_eq_true, if_false, Except.ok.injEq] at h
      exact h.symm
  · intro p R1 R2
    unfold check_filter_fastq check_names_filter_fastq
    split
    · simp
    · simp
  · intro p R1 R2 b h
    cases b
    · unfold check_names_filter_fastq at h
      split at h
      · exact absurd h (by simp)
      · simp at h
    · rfl

theorem length_mask (f t : Char) (s : Seq) :
    (mask f t s).length = s.length :=
  List.length_map _ _

theorem findSub_bound (s pat : Seq) (i : Nat)
    (h : findSub s pat = some i) : i + pat.length ≤ s.length := by
  unfold findSub at h
  have hp := List.find?_some h
  have hmem := List.mem_of_find?_eq_some h
  rw [decide_eq_true_iff] at hp
  have hlen := congrArg List.length hp
  rw [List.length_take, List.length_drop] at hlen
  have hi : i < s.length + 1 := List.mem_range.mp hmem
  omega

theorem findSub_nil (s : Seq) : findSub s [] = some 0 := by
  unfold findSub
  have : s.length + 1 = (s.length + 1) := rfl
  rw [List.range_succ_eq_map]
  rw [List.find?_cons_of_pos]
  simp

/-- Claim C6 (amended): the candidate-window extraction behaves as the
claim states whenever the configured start anchor is nonempty (and in
end-anchor mode): the candidate exists exactly when the anchor occurs in
the masked read and the window stays inside the read, a window touching
the read end included.  When the start anchor is the empty sequence the
premature `guide_start_idx + guide_length >= len(R1_seq)` check rejects a
window that ends exactly at the read end: a candidate exists only when
the guide length is strictly below the read length. -/
theorem get_guide_seq_candidate_characterization (cfg : CountConfig)
    (R1_seq : Seq) (guide_length : Nat) :
    (cfg.guide_end_seq = [] → cfg.guide_start_seq ≠ [] →
      match findSub (mask cfg.base_edited_from cfg.base_edited_to R1_seq)
          (mask cfg.base_edited_from cfg.base_edited_to
            cfg.guide_start_seq) with
      | none => get_guide_seq cfg R1_seq guide_length = none
      | some i =>
        get_guide_seq cfg R1_seq guide_length =
          if i + cfg.guide_start_seq.length + guide_length ≤
              R1_seq.length then
            some ((R1_seq.drop (i + cfg.guide_start_seq.length)).take
              guide_length)
          else none) ∧
    (cfg.guide_end_seq = [] → cfg.guide_start_seq = [] →
      get_guide_seq cfg R1_seq guide_length =
        if guide_length < R1_seq.length then
          some (R1_seq.take guide_length)
        else none) ∧
    (cfg.guide_end_seq ≠ [] →
      match findSub (mask cfg.base_edited_from cfg.base_edited_to R1_seq)
          (mask cfg.base_edited_from cfg.base_edited_to
            cfg.guide_end_seq) with
      | none => get_guide_seq cfg R1_seq guide_length = none
      | some e =>
        get_guide_seq cfg R1_seq guide_length =
          if guide_length ≤ e then
            some ((R1_seq.drop (e - guide_length)).take guide_length)
          else none) := by
  refine ⟨?_, ?_, ?_⟩
  · intro hend hss
    cases hfind : findSub
        (mask cfg.base_edited_from cfg.base_edited_to R1_seq)
        (mask cfg.base_edited_from cfg.base_edited_to
          cfg.guide_start_seq) with
    | none =>
      simp only [get_guide_seq, if_pos hend, hfind]
    | some i =>
      simp only [get_guide_seq, if_pos hend, hfind]
      have hbound := findSub_bound _ _ i hfind
      rw [length_mask, length_mask] at hbound
      have hssl : 1 ≤ cfg.guide_start_seq.length := by
        cases hs : cfg.guide_start_seq with
        | nil => exact absurd hs hss
        | cons a l => simp [hs]
      by_cases hfit :
          i + cfg.guide_start_seq.length + guide_length ≤ R1_seq.length
      · rw [if_pos hfit, if_neg (by omega), if_neg (by
          simp only [List.length_take, List.length_drop]
          omega)]
      · rw [if_neg hfit]
        by_cases hpre : R1_seq.length ≤ i + guide_length
        · rw [if_pos hpre]
        · rw [if_neg hpre, if_pos (by
            simp only [List.length_take, List.length_drop]
            omega)]
  · intro hend hss
    simp only [get_guide_seq, if_pos hend, hss]
    rw [show mask cfg.base_edited_from cfg.base_edited_to [] = [] from
      rfl, findSub_nil]
    simp only [List.length_nil, Nat.add_zero, Nat.zero_add,
      List.drop_zero]
    by_cases hfit : guide_length < R1_seq.length
    · rw [if_neg (by omega), if_neg (by
        simp only [List.length_take]
        omega), if_pos hfit]
    · rw [if_pos (by omega), if_neg hfit]
  · intro hend
    cases hfind : findSub
        (mask cfg.base_edited_from cfg.base_edited_to R1_seq)
        (mask cfg.base_edited_from cfg.base_edited_to
          cfg.guide_end_seq) with
    | none =>
      simp only [get_guide_seq, if_neg hend, hfind]
    | some e =>
      simp only [get_guide_seq, if_neg hend, hfind]
      have hbound := findSub_bound _ _ e hfind
      rw [length_mask, length_mask] at hbound
      by_cases hfit : guide_length ≤ e
      · rw [if_pos hfit, if_neg (by omega), if_neg (by
          simp only [List.length_take, List.length_drop]
          omega)]
      · rw [if_neg hfit, if_pos (by omega)]

theorem get_guide_seq_rejects_window_at_read_end :
    get_guide_seq demoCfg (['A', 'A', 'A', 'A'] : Seq) 4 = none ∧
    findSub (mask 'C' 'T' (['A', 'A', 'A', 'A'] : Seq))
      (mask 'C' 'T' demoCfg.guide_start_seq) = some 0 ∧
    0 + demoCfg.guide_start_seq.length + 4 ≤
      (['A', 'A', 'A', 'A'] : Seq).length ∧
    demoCfg.guide_end_seq = [] := by
  refine ⟨by decide, by decide, by decide, rfl⟩

/-- Claim C7 (amended): loading fails with the validation error when
`name` or `sequence` is missing, and when the barcode-only flag is set
and `barcode` is missing; but the `barcode` column is required
unconditionally — with the flag off (as the constructor hardcodes) a
missing `barcode` column still aborts loading, with the attribute error
raised by the masked-barcode computation rather than the validation
error; with all three columns present loading succeeds and computes the
masked sequence and barcode of every row. -/
theorem set_sgRNA_df_column_validation (count_only_bcmatched : Bool)
    (f t : Char) (df : GuideInfoDf) :
    (GuideCol.name ∉ df.columns ∨ GuideCol.sequence ∉ df.columns →
      set_sgRNA_df count_only_bcmatched f t df =
        .error .inputFileError) ∧
    (GuideCol.name ∈ df.columns → GuideCol.sequence ∈ df.columns →
      count_only_bcmatched = true → GuideCol.barcode ∉ df.columns →
      set_sgRNA_df count_only_bcmatched f t df =
        .error .inputFileError) ∧
    (GuideCol.name ∈ df.columns → GuideCol.sequence ∈ df.columns →
      count_only_bcmatched = false → GuideCol.barcode ∉ df.columns →
      set_sgRNA_df count_only_bcmatched f t df =
        .error .attributeError) ∧
    (GuideCol.name ∈ df.columns → GuideCol.sequence ∈ df.columns →
      GuideCol.barcode ∈ df.columns →
      set_sgRNA_df count_only_bcmatched f t df =
        .ok (df.rows.map fun r =>
          { sequence := r.sequence
            barcode := r.barcode
            masked_sequence := mask f t r.sequence
            masked_barcode := mask f t r.barcode })) := by
  refine ⟨?_, ?_, ?_, ?_⟩
  · intro h
    unfold set_sgRNA_df
    rw [if_pos h]
  · intro hn hs hc hb
    unfold set_sgRNA_df
    rw [if_neg (by simp [hn, hs]), if_pos ⟨hc, hb⟩]
  · intro hn hs hc hb
    unfold set_sgRNA_df
    rw [if_neg (by simp [hn, hs]), if_neg (by simp [hc]),
      if_pos hb]
  · intro hn hs hb
    unfold set_sgRNA_df
    rw [if_neg (by simp [hn, hs]), if_neg (by simp [hb]),
      if_neg (not_not_intro hb)]

theorem set_sgRNA_df_fails_without_barcode_column :
    (GuideCol.name ∈ dfWithoutBarcodeCol.columns ∧
      GuideCol.sequence ∈ dfWithoutBarcodeCol.columns ∧
      GuideCol.barcode ∉ dfWithoutBarcodeCol.columns) ∧
    set_sgRNA_df false 'C' 'T' dfWithoutBarcodeCol =
      .error .attributeError := by
  exact ⟨by decide, rfl⟩

end CrisprBean
